import Mathlib

/-!
# animan-horse-db: the browser client `static/app.js`

A shallow embedding of the pure parts of `static/app.js` (the condition codec of
`setupEditForm` and of the two submit handlers, the club registry, `escapeHTML`,
the card template of `renderPosts`) and of the request the two submit handlers
send, followed by the properties proved about them.

JavaScript strings are sequences of UTF-16 code units; they are modelled as lists
of natural numbers, one per code unit, so that `startsWith`, `substring` and the
regular expression of `escapeHTML` (which has no `u` flag) see exactly what the
engine sees.
-/

set_option autoImplicit false

namespace AnimanHorseDb

/-! ## Strings -/

/-- A JavaScript string: its UTF-16 code units, in order. -/
abbrev JSString := List Nat

/-- UTF-16 code units of one character: itself in the basic plane, a surrogate
pair above it. -/
def charUnits (c : Char) : List Nat :=
  if c.toNat < 0x10000 then [c.toNat]
  else [0xD800 + (c.toNat - 0x10000) / 0x400, 0xDC00 + (c.toNat - 0x10000) % 0x400]

/-- The JavaScript string written by a source literal. -/
def js (s : String) : JSString :=
  s.toList.foldr (fun c acc => charUnits c ++ acc) []

/-- The method `String.prototype.startsWith(t)` with the default position 0. -/
def startsWith (s t : JSString) : Bool :=
  t.isPrefixOf s

/-- The method `String.prototype.substring(n)` for a non-negative integer `n`:
the code units from index `min n length` to the end. -/
def substring (s : JSString) (n : Nat) : JSString :=
  s.drop n

/-! ## Condition codec -/

/-- The surface token `芝` (turf). -/
def shiba : JSString := [0x829D]

/-- The surface token `ダート` (dirt). -/
def dirt : JSString := [0x30C0, 0x30FC, 0x30C8]

/-- The surface token `障害` (jump). -/
def shougai : JSString := [0x969C, 0x5BB3]

/-- The three surface tokens, in the order `setupEditForm` tests them. -/
def surfaces : List JSString := [shiba, dirt, shougai]

/-- Line 72 and line 149, `data.conditions = data.surface + data.distance`,
on two strings. -/
def encode (surface distance : JSString) : JSString :=
  surface ++ distance

/-- Lines 282-286 of `setupEditForm`. `conditions` is `post.conditions`; `none`
stands for an absent or `null` value, which `post.conditions || ''` turns into
the empty string (as it does the empty string itself). The result is the pair
`(surface, distance)` written to the edit form. -/
def decode (conditions : Option JSString) : JSString × JSString :=
  let surface := shiba
  let distance := conditions.getD []
  if startsWith distance shiba then (shiba, substring distance 1)
  else if startsWith distance dirt then (dirt, substring distance 3)
  else if startsWith distance shougai then (shougai, substring distance 2)
  else (surface, distance)

/-! ## Values and object literals -/

/-- The JavaScript values that reach the functions modelled here: `undefined`
(also standing for `null`, which every use below treats the same way), a string,
or the value of a property of `Object.prototype` (a built-in function, or for
`__proto__` the prototype object itself), identified by the property name. -/
inductive JSValue where
  | undefined
  | str (s : JSString)
  | inherited (name : JSString)
  deriving DecidableEq, Repr

/-- Errors thrown by the modelled code. -/
inductive JSError where
  | typeError
  | rangeError
  deriving DecidableEq, Repr

deriving instance DecidableEq for Except

/-- The property names every ordinary object inherits from `Object.prototype`
in a browser (ECMAScript 2023, section 20.1.3 and annex B.2.2). -/
def objectPrototypeKeys : List JSString :=
  [js "constructor", js "hasOwnProperty", js "isPrototypeOf", js "propertyIsEnumerable",
   js "toLocaleString", js "toString", js "valueOf", js "__proto__",
   js "__defineGetter__", js "__defineSetter__", js "__lookupGetter__",
   js "__lookupSetter__"]

/-- The read `table[key]` on an object literal whose own properties, all with
string values, are `table`: the own property when there is one, otherwise the
property inherited from `Object.prototype`, otherwise `undefined`. -/
def getProperty (table : List (JSString × JSString)) (key : JSString) : JSValue :=
  match table.lookup key with
  | some v => .str v
  | none => if key ∈ objectPrototypeKeys then .inherited key else .undefined

/-- ToBoolean: `undefined` and the empty string are falsy, a non-empty string
and every object are truthy. -/
def truthy : JSValue → Bool
  | .undefined => false
  | .str s => !s.isEmpty
  | .inherited _ => true

/-- The operator `a || b`. -/
def jsOr (a b : JSValue) : JSValue :=
  if truthy a then a else b

/-- An optional text field of a post as a JavaScript value. -/
def ofOption : Option JSString → JSValue
  | none => .undefined
  | some s => .str s

/-! ## Club registry -/

/-- Lines 328-353, `clubOptions`. -/
def clubOptions : List (JSString × JSString) :=
  [(js "サンデーR", js "サンデーレーシング"),
   (js "社台RH", js "社台レースホース"),
   (js "G1レーシング", js "G1レーシング"),
   (js "キャロット", js "キャロットクラブ"),
   (js "シルク", js "シルクホースクラブ"),
   (js "DMMバヌーシー", js "DMMバヌーシー"),
   (js "東サラ", js "東京サラブレッドクラブ"),
   (js "ノルマンディー", js "ノルマンディーOC"),
   (js "ウイン", js "ウインレーシングクラブ"),
   (js "ラフィアン", js "ラフィアンターフマンクラブ"),
   (js "ロード", js "ロードホースクラブ"),
   (js "広尾", js "広尾サラブレッド倶楽部"),
   (js "YGG", js "YGGオーナーズクラブ"),
   (js "ライオン", js "サラブレッドクラブライオン"),
   (js "グリーン", js "グリーンファーム愛馬会"),
   (js "友駿", js "友駿ホースクラブ"),
   (js "ユニオン", js "ユニオンオーナーズクラブ"),
   (js "ターファイト", js "ターファイトクラブ"),
   (js "ローレル", js "ローレルクラブ"),
   (js "大樹", js "大樹レーシングクラブ"),
   (js "ワラウカド", js "ワラウカド"),
   (js "インゼル", js "インゼルサラブレッドクラブ"),
   (js "京サラ", js "京都サラブレッドクラブ"),
   (js "バゴバゴ", js "その他・個人等")]

/-- Lines 355-380, `clubClasses`. -/
def clubClasses : List (JSString × JSString) :=
  [(js "サンデーR", js "sunday"),
   (js "社台RH", js "shadai"),
   (js "G1レーシング", js "g1"),
   (js "キャロット", js "carrot"),
   (js "シルク", js "silk"),
   (js "DMMバヌーシー", js "dmm"),
   (js "東サラ", js "tokyo-tc"),
   (js "ノルマンディー", js "normandy"),
   (js "ウイン", js "win"),
   (js "ラフィアン", js "ruffian"),
   (js "ロード", js "lord"),
   (js "広尾", js "hiroo"),
   (js "YGG", js "ygg"),
   (js "ライオン", js "lion"),
   (js "グリーン", js "green"),
   (js "友駿", js "yushun"),
   (js "ユニオン", js "union"),
   (js "ターファイト", js "turfite"),
   (js "ローレル", js "laurel"),
   (js "大樹", js "taiki"),
   (js "ワラウカド", js "waraukado"),
   (js "インゼル", js "insel"),
   (js "京サラ", js "kyoto-tc"),
   (js "バゴバゴ", js "other")]

/-- Lines 382-384: `return clubOptions[val] || val;` for a string `val`. -/
def getClubDisplayName (val : JSString) : JSValue :=
  jsOr (getProperty clubOptions val) (.str val)

/-- Lines 386-388: `return clubClasses[val] || "default";` for a string `val`. -/
def getClubClassName (val : JSString) : JSValue :=
  jsOr (getProperty clubClasses val) (.str (js "default"))

/-! ## escapeHTML -/

/-- The object literal of lines 318-324, keyed by the code unit of its
one-character keys: `&`, `<`, `>`, `'`, `"`. -/
def escapeTable : List (Nat × JSString) :=
  [(38, js "&amp;"), (60, js "&lt;"), (62, js "&gt;"), (39, js "&#39;"), (34, js "&quot;")]

/-- Whether the character class `[&<>'"]` of line 317 matches a code unit. -/
def matchesTag (c : Nat) : Bool :=
  c == 38 || c == 60 || c == 62 || c == 39 || c == 34

/-- The replacer of lines 318-324, `tag => (table[tag] || tag)`, on a matched
one-unit string. -/
def replaceTag (tag : Nat) : JSString :=
  (escapeTable.lookup tag).getD [tag]

/-- The call `str.replace(/[&<>'"]/g, replacer)` on a string: every matched code
unit is replaced by what the replacer returns, the others are kept. -/
def replaceTags (str : JSString) : JSString :=
  str.flatMap (fun c => if matchesTag c then replaceTag c else [c])

/-- Lines 315-326, `escapeHTML`. A falsy argument gives the empty string; a
value that is neither falsy nor a string has no `replace` method, and the call
throws a `TypeError`. -/
def escapeHTML (str : JSValue) : Except JSError JSString :=
  if !truthy str then .ok []
  else match str with
    | .str s => .ok (replaceTags s)
    | _ => .error .typeError

/-- The texts of the object literal of lines 318-324: `&amp;`, `&lt;`, `&gt;`,
`&#39;`, `&quot;`. -/
def entities : List JSString :=
  escapeTable.map Prod.snd

/-! ## renderPosts: one card -/

/-- A post as `GET /api/posts` returns it. Optional text fields are `none` when
absent or `null`. -/
structure Post where
  id : Int
  horse_name : JSString
  club : JSString
  race_date : JSString
  racecourse : JSString
  race_number : Int
  race_name : Option JSString
  conditions : Option JSString
  confidence : Int
  comment : Option JSString
  poster_name : Option JSString

/-- The text a template literal inserts for an integer. -/
def numberToString (n : Int) : JSString :=
  js (toString n)

/-- The method `String.prototype.repeat(count)` for an integer count: a `RangeError` when
the count is negative, otherwise `count` copies. -/
def jsRepeat (s : JSString) (count : Int) : Except JSError JSString :=
  if count < 0 then .error .rangeError
  else .ok (List.replicate count.toNat s).flatten

/-- Line 206:
`'★'.repeat(post.confidence) + '☆'.repeat(5 - post.confidence)`. -/
def confidenceStars (confidence : Int) : Except JSError JSString := do
  let filled ← jsRepeat (js "★") confidence
  let empty ← jsRepeat (js "☆") (5 - confidence)
  pure (filled ++ empty)

/-- Lines 205-231: the string assigned to `card.innerHTML` for one post, or the
error thrown while building it. `formatDate` (lines 390-397, a locale-dependent
date rendering) is a parameter. -/
def cardHTML (formatDate : JSString → JSString) (post : Post) : Except JSError JSString := do
  let dateStr := formatDate post.race_date
  let confidenceStars ← confidenceStars post.confidence
  let raceName ←
    if truthy (ofOption post.race_name) then do
      let e ← escapeHTML (ofOption post.race_name)
      pure (js "<span class=\"race-name\" style=\"margin-left: 8px; font-weight: normal; font-size: 0.9em; color: var(--text-secondary);\">" ++ e ++ js "</span>")
    else pure []
  let horseName ← escapeHTML (.str post.horse_name)
  let clubClass ← escapeHTML (getClubClassName post.club)
  let clubName ← escapeHTML (getClubDisplayName post.club)
  let conditions ← escapeHTML (ofOption post.conditions)
  let comment ←
    if truthy (ofOption post.comment) then do
      let e ← escapeHTML (ofOption post.comment)
      pure (js "<div class=\"comment-box\">" ++ e ++ js "</div>")
    else pure []
  let poster ← escapeHTML (jsOr (ofOption post.poster_name) (.str (js "名無しさん")))
  pure (
    js "\n                <div class=\"card-header\">\n                    <div class=\"race-info\">\n                        "
    ++ post.racecourse ++ js " " ++ numberToString post.race_number
    ++ js "R\n                        "
    ++ raceName
    ++ js "\n                    </div>\n                    <div class=\"header-right\">\n                        <div class=\"race-date\">"
    ++ dateStr
    ++ js "</div>\n                        <button class=\"action-btn edit-action-btn\" data-id=\""
    ++ numberToString post.id
    ++ js "\">編集/削除</button>\n                    </div>\n                </div>\n                <div class=\"horse-name\">"
    ++ horseName
    ++ js "</div>\n                <div class=\"card-details\">\n                    <span class=\"tag club tag-"
    ++ clubClass ++ js "\">" ++ clubName
    ++ js "</span>\n                    <span class=\"tag conditions\">"
    ++ conditions
    ++ js "</span>\n                    <span class=\"stars\" title=\"自信度: "
    ++ numberToString post.confidence ++ js "\">" ++ confidenceStars
    ++ js "</span>\n                </div>\n                "
    ++ comment
    ++ js "\n                <div class=\"poster\">\n                    投稿者: <strong>"
    ++ poster
    ++ js "</strong>\n                </div>\n            ")

/-- The text of the card template up to its first inserted value (lines
210-213). -/
def cardHead : JSString :=
  js "\n                <div class=\"card-header\">\n                    <div class=\"race-info\">\n                        "

/-- A post whose racecourse holds markup; every other field is ordinary. -/
def scriptPost : Post :=
  { id := 1
    horse_name := js "Test Horse"
    club := js "サンデーR"
    race_date := js "2024-05-05"
    racecourse := js "<script>alert(1)</script>"
    race_number := 11
    race_name := none
    conditions := some (js "芝1600")
    confidence := 4
    comment := none
    poster_name := none }

/-! ## The submit handlers -/

/-- A value held by the `data` object of the submit handlers: a string or a
number. A number is an integer, or `none` for `NaN`. -/
inductive DataValue where
  | str (s : JSString)
  | num (n : Option Int)
  deriving DecidableEq, Repr

/-- The `data` object: its own properties, each key once. -/
abbrev DataObject := List (JSString × DataValue)

/-- The read `data.key` for a key that `Object.prototype` does not define (all
the keys the handlers read are such): the own property, or `none` for
`undefined`. -/
def objGet (o : DataObject) (key : JSString) : Option DataValue :=
  o.lookup key

/-- The assignment `data.key = v`: replaces the value of an existing property in
place, appends a new one. -/
def objSet : DataObject → JSString → DataValue → DataObject
  | [], key, v => [(key, v)]
  | (k, w) :: o, key, v => if key == k then (k, v) :: o else (k, w) :: objSet o key v

/-- The statement `delete data.key`. -/
def objDelete (o : DataObject) (key : JSString) : DataObject :=
  o.filter (fun e => !(key == e.1))

/-- Lines 66-67 and 142-143: `Object.fromEntries(formData.entries())`, for a form
whose entries all have string values. A name that occurs again overwrites the
value set before. -/
def fromEntries (entries : List (JSString × JSString)) : DataObject :=
  entries.foldl (fun o e => objSet o e.1 (.str e.2)) []

/-- The value a form supplies under a name: that of its last entry with this
name, `none` when it has no such entry. -/
def formValue : List (JSString × JSString) → JSString → Option JSString
  | [], _ => none
  | (k, v) :: entries, name =>
    match formValue entries name with
    | some w => some w
    | none => if name == k then some v else none

/-- ToString of a number that is an integer or `NaN`. -/
def numToString : Option Int → JSString
  | none => js "NaN"
  | some n => numberToString n

/-- ToString of the result of a property read. -/
def toStr : Option DataValue → JSString
  | none => js "undefined"
  | some (.str s) => s
  | some (.num n) => numToString n

/-- ToNumber of the result of a property read that is not a string. -/
def toNum : Option DataValue → Option Int
  | some (.num n) => n
  | _ => none

/-- The operator `a + b` on the results of two property reads: concatenation of
the two ToString texts when either is a string, numeric addition otherwise
(`undefined` converting to `NaN`). -/
def jsPlus (a b : Option DataValue) : DataValue :=
  match a, b with
  | some (.str _), _ => .str (toStr a ++ toStr b)
  | _, some (.str _) => .str (toStr a ++ toStr b)
  | _, _ => .num (do let x ← toNum a; let y ← toNum b; pure (x + y))

/-- Lines 68-74, written once for the two handlers: the statements that both
handlers apply to `data` in the same order, with `extra` standing for what the
update handler does in between (line 146). `parseInt` is the built-in, applied
to the ToString of its argument. -/
def buildData (parseInt : JSString → Option Int) (extra : DataObject → DataObject)
    (entries : List (JSString × JSString)) : DataObject :=
  let data := fromEntries entries
  let data := objSet data (js "race_number") (.num (parseInt (toStr (objGet data (js "race_number")))))
  let data := objSet data (js "confidence") (.num (parseInt (toStr (objGet data (js "confidence")))))
  let data := extra data
  let data := objSet data (js "conditions")
    (jsPlus (objGet data (js "surface")) (objGet data (js "distance")))
  let data := objDelete data (js "surface")
  let data := objDelete data (js "distance")
  data

/-- A JSON value written by `JSON.stringify(data)`. -/
inductive Json where
  | null
  | num (n : Int)
  | str (s : JSString)
  deriving DecidableEq, Repr

/-- What `JSON.stringify` writes for one value of `data`: `NaN` becomes `null`. -/
def Json.ofData : DataValue → Json
  | .str s => .str s
  | .num none => .null
  | .num (some n) => .num n

/-- The call `JSON.stringify(data)` as the JSON object it denotes: its members, read by
name. (The order in which the members are written is not modelled.) -/
def stringify (data : DataObject) : List (JSString × Json) :=
  data.map (fun e => (e.1, Json.ofData e.2))

/-- The HTTP methods the handlers use. -/
inductive Method where
  | POST
  | PUT
  deriving DecidableEq, Repr

/-- A call of `fetch`. -/
structure Request where
  method : Method
  url : JSString
  body : List (JSString × Json)
  deriving DecidableEq, Repr

/-- Line 26. -/
def API_BASE : JSString := js "/api/posts"

/-- Lines 66-81: the request the create handler sends for the entries of
`postForm`. -/
def createRequest (parseInt : JSString → Option Int)
    (entries : List (JSString × JSString)) : Request :=
  { method := .POST
    url := API_BASE
    body := stringify (buildData parseInt id entries) }

/-- Lines 142-158: the request the update handler sends for the entries of
`editForm`, the value `password` of the auth input and the active post id. -/
def updateRequest (parseInt : JSString → Option Int) (password : JSString)
    (activePostId : Int) (entries : List (JSString × JSString)) : Request :=
  { method := .PUT
    url := API_BASE ++ js "/" ++ numberToString activePostId
    body := stringify
      (buildData parseInt (fun data => objSet data (js "password") (.str password)) entries) }

/-- What `await fetch(...)` yields: a response with its `ok` flag and status,
or a rejection. -/
inductive FetchResult where
  | response (ok : Bool) (status : Nat)
  | rejected
  deriving DecidableEq, Repr

/-- What the create handler does once the fetch has settled (lines 83-92). -/
inductive CreateOutcome where
  /-- Lines 84-86: modal closed, form reset, posts fetched again. -/
  | posted
  /-- Line 88: `alert('投稿に失敗しました。')`. -/
  | alertFailed
  /-- Line 92: `alert('通信エラーが発生しました。')`. -/
  | alertNetwork
  deriving DecidableEq, Repr

/-- One run of the create handler: the requests it sent and how it ended. -/
structure CreateRun where
  sent : List Request
  outcome : CreateOutcome
  deriving DecidableEq, Repr

/-- Lines 61-96, the `submit` handler of `postForm`, against a server that
answers `server request`. -/
def postFormSubmit (parseInt : JSString → Option Int) (server : Request → FetchResult)
    (entries : List (JSString × JSString)) : CreateRun :=
  let request := createRequest parseInt entries
  { sent := [request]
    outcome :=
      match server request with
      | .response true _ => .posted
      | .response false _ => .alertFailed
      | .rejected => .alertNetwork }

/-- The entries of a filled create form; `confidence` is the text given. -/
def sampleEntries (confidence : JSString) : List (JSString × JSString) :=
  [(js "horse_name", js "Test Horse"), (js "club", js "サンデーR"),
   (js "race_date", js "2024-05-05"), (js "racecourse", js "東京"),
   (js "race_number", js "11"), (js "race_name", js ""), (js "surface", js "芝"),
   (js "distance", js "1600"), (js "confidence", confidence), (js "comment", js ""),
   (js "poster_name", js ""), (js "password", js "abc123")]

/-- The body `createRequest` builds from `sampleEntries` when the parse of the
confidence text is `confidence`. -/
def sampleBody (confidence : Int) : List (JSString × Json) :=
  [(js "horse_name", .str (js "Test Horse")), (js "club", .str (js "サンデーR")),
   (js "race_date", .str (js "2024-05-05")), (js "racecourse", .str (js "東京")),
   (js "race_number", .num 11), (js "race_name", .str (js "")),
   (js "confidence", .num confidence), (js "comment", .str (js "")),
   (js "poster_name", .str (js "")), (js "password", .str (js "abc123")),
   (js "conditions", .str (js "芝1600"))]

/-! ## parseInt -/

/-- The code units `parseInt` skips at the start of its input (white space and
line terminators). -/
def isStrWhiteSpace (c : Nat) : Bool :=
  c ∈ [0x09, 0x0A, 0x0B, 0x0C, 0x0D, 0x20, 0xA0, 0x1680, 0x2000, 0x2001, 0x2002, 0x2003,
       0x2004, 0x2005, 0x2006, 0x2007, 0x2008, 0x2009, 0x200A, 0x2028, 0x2029, 0x202F,
       0x205F, 0x3000, 0xFEFF]

/-- The value of a code unit as a digit, letters counting from ten. -/
def digitValue (c : Nat) : Option Nat :=
  if 48 ≤ c ∧ c ≤ 57 then some (c - 48)
  else if 97 ≤ c ∧ c ≤ 122 then some (c - 87)
  else if 65 ≤ c ∧ c ≤ 90 then some (c - 55)
  else none

/-- The leading digits of `s` in the given radix, as their values. -/
def leadingDigits (radix : Nat) : JSString → List Nat
  | [] => []
  | c :: s =>
    match digitValue c with
    | some d => if d < radix then d :: leadingDigits radix s else []
    | none => []

/-- The built-in `parseInt(string)` without a radix argument: leading white space
skipped, an optional sign, radix 16 after `0x` or `0X` and 10 otherwise, then the
longest run of digits; `none` (`NaN`) when there is no digit. The result is the
mathematical integer, which is the number JavaScript returns as long as it is
below `2 ^ 53` in absolute value (`-0` counting as `0`, as `JSON.stringify`
writes it). -/
def parseInt (string : JSString) : Option Int :=
  let s := string.dropWhile isStrWhiteSpace
  let (sign, s) : Int × JSString :=
    match s with
    | 45 :: r => (-1, r)
    | 43 :: r => (1, r)
    | _ => (1, s)
  let (radix, s) : Nat × JSString :=
    match s with
    | 48 :: 120 :: r => (16, r)
    | 48 :: 88 :: r => (16, r)
    | _ => (10, s)
  let digits := leadingDigits radix s
  if digits.isEmpty then none
  else some (sign * (digits.foldl (fun acc d => acc * radix + d) 0 : Nat))

/-! ## The embedding on concrete inputs -/

theorem js_surface_tokens : js "芝" = shiba ∧ js "ダート" = dirt ∧ js "障害" = shougai := by
  decide

theorem decode_samples :
    decode (some (js "芝1600m")) = (js "芝", js "1600m") ∧
      decode (some (js "ダート1200")) = (js "ダート", js "1200") ∧
      decode (some (js "1600m")) = (js "芝", js "1600m") := by
  decide

theorem parseInt_samples :
    parseInt (js "0") = some 0 ∧ parseInt (js " 42px") = some 42 ∧
      parseInt (js "-0x1F") = some (-31) ∧ parseInt (js "abc") = none ∧
      parseInt (js "undefined") = none := by
  decide

theorem createRequest_sample :
    (createRequest parseInt (sampleEntries (js "4"))).body = sampleBody 4 := by
  decide

/-! ## Condition codec: properties -/

theorem decode_encode (S D : JSString) (hS : S ∈ surfaces) :
    decode (some (encode S D)) = (S, D) := by
  simp only [surfaces, List.mem_cons, List.mem_singleton, List.not_mem_nil, or_false] at hS
  rcases hS with rfl | rfl | rfl <;>
    simp [decode, encode, startsWith, substring, shiba, dirt, shougai]

theorem startsWith_iff (s t : JSString) : startsWith s t = true ↔ ∃ r, s = t ++ r := by
  unfold startsWith
  rw [List.isPrefixOf_iff_prefix]
  constructor
  · rintro ⟨r, hr⟩
    exact ⟨r, hr.symm⟩
  · rintro ⟨r, hr⟩
    exact ⟨r, hr.symm⟩

theorem decode_of_startsWith (c T : JSString) (hT : T ∈ surfaces)
    (h : startsWith c T = true) : decode (some c) = (T, substring c T.length) := by
  obtain ⟨r, rfl⟩ := (startsWith_iff c T).1 h
  simp only [surfaces, List.mem_cons, List.mem_singleton, List.not_mem_nil, or_false] at hT
  rcases hT with rfl | rfl | rfl <;>
    simp [decode, startsWith, substring, shiba, dirt, shougai]

/-- C1. Round trip of the condition codec: for every surface `S` among `芝`, `ダート`,
`障害` and every distance `D` that does not begin with another surface token,
decoding `S + D` gives back exactly `(S, D)`. -/
theorem C1_decode_encode_roundtrip (S D : JSString) (hS : S ∈ surfaces)
    (_hD : ∀ T ∈ surfaces, T ≠ S → startsWith D T = false) :
    decode (some (encode S D)) = (S, D) :=
  decode_encode S D hS

theorem C1_decode_encode_roundtrip_witness :
    dirt ∈ surfaces ∧ (∀ T ∈ surfaces, T ≠ dirt → startsWith (js "1600m") T = false) ∧
      decode (some (encode dirt (js "1600m"))) = (dirt, js "1600m") :=
  ⟨by decide, by decide,
    C1_decode_encode_roundtrip dirt (js "1600m") (by decide) (by decide)⟩

/-- C2. Decode fallback: a conditions string that begins with none of `芝`, `ダート`,
`障害` decodes, without failing, to surface `芝` and the whole input as distance;
the empty string and an absent value both decode to `芝` and the empty string;
`decode("1600m")` is `(芝, "1600m")`. -/
theorem C2_decode_fallback :
    (∀ c : JSString, (∀ T ∈ surfaces, startsWith c T = false) →
        decode (some c) = (shiba, c)) ∧
      decode none = (shiba, []) ∧ decode (some []) = (shiba, []) ∧
      decode (some (js "1600m")) = (js "芝", js "1600m") := by
  refine ⟨?_, by decide, by decide, by decide⟩
  intro c h
  have h1 := h shiba (by decide)
  have h2 := h dirt (by decide)
  have h3 := h shougai (by decide)
  simp [decode, h1, h2, h3]

theorem C2_decode_fallback_witness :
    (∀ T ∈ surfaces, startsWith (js "2000m 良") T = false) ∧
      decode (some (js "2000m 良")) = (shiba, js "2000m 良") :=
  ⟨by decide, C2_decode_fallback.1 (js "2000m 良") (by decide)⟩

/-- C3. Decode strips the first matching prefix: when the conditions string `c`
begins with a surface token `T`, decoding returns `T` as surface and `c` without
its first `T.length` code units (1 for `芝`, 3 for `ダート`, 2 for `障害`) as
distance, and surface followed by distance is `c` again. -/
theorem C3_decode_strips_token (c T : JSString) (hT : T ∈ surfaces)
    (h : startsWith c T = true) :
    decode (some c) = (T, substring c T.length) ∧
      (shiba.length = 1 ∧ dirt.length = 3 ∧ shougai.length = 2) ∧
      encode (decode (some c)).1 (decode (some c)).2 = c := by
  refine ⟨decode_of_startsWith c T hT h, by decide, ?_⟩
  rw [decode_of_startsWith c T hT h]
  obtain ⟨r, rfl⟩ := (startsWith_iff c T).1 h
  simp [encode, substring]

theorem C3_decode_strips_token_witness :
    shougai ∈ surfaces ∧ startsWith (js "障害3000m") shougai = true ∧
      decode (some (js "障害3000m")) = (shougai, js "3000m") ∧
      encode (decode (some (js "障害3000m"))).1 (decode (some (js "障害3000m"))).2
        = js "障害3000m" :=
  ⟨by decide, by decide,
    (C3_decode_strips_token (js "障害3000m") shougai (by decide) (by decide)).1.trans
      (by decide),
    (C3_decode_strips_token (js "障害3000m") shougai (by decide) (by decide)).2.2⟩

/-! ## Club registry: properties -/

theorem clubOptions_keys_nodup : (clubOptions.map Prod.fst).Nodup := by decide

theorem clubOptions_length : clubOptions.length = 24 := by decide

theorem clubClasses_keys_eq : clubClasses.map Prod.fst = clubOptions.map Prod.fst := by decide

theorem getClubDisplayName_registered :
    ∀ e ∈ clubOptions, getClubDisplayName e.1 = .str e.2 := by decide

theorem getClubClassName_registered :
    ∀ e ∈ clubClasses, getClubClassName e.1 = .str e.2 ∧ e.2 ≠ js "default" := by decide

theorem getClubDisplayName_unregistered (val : JSString)
    (h : clubOptions.lookup val = none) (hp : val ∉ objectPrototypeKeys) :
    getClubDisplayName val = .str val := by
  simp [getClubDisplayName, getProperty, h, hp, jsOr, truthy]

theorem getClubClassName_unregistered (val : JSString)
    (h : clubClasses.lookup val = none) (hp : val ∉ objectPrototypeKeys) :
    getClubClassName val = .str (js "default") := by
  simp [getClubClassName, getProperty, h, hp, jsOr, truthy]

theorem getClubDisplayName_inherited (val : JSString) (hp : val ∈ objectPrototypeKeys) :
    getClubDisplayName val = .inherited val := by
  have h : clubOptions.lookup val = none := by
    revert val
    decide
  simp [getClubDisplayName, getProperty, h, hp, jsOr, truthy]

theorem getClubClassName_inherited (val : JSString) (hp : val ∈ objectPrototypeKeys) :
    getClubClassName val = .inherited val := by
  have h : clubClasses.lookup val = none := by
    revert val
    decide
  simp [getClubClassName, getProperty, h, hp, jsOr, truthy]

/-- C4. The club code `"toString"` is not registered in `clubOptions`, yet
`getClubDisplayName("toString")` is not the raw code: the read
`clubOptions["toString"]` finds the function inherited from `Object.prototype`,
which is truthy and is returned. (The unknown code `"未知"` does come back
unchanged.) -/
theorem C4_getClubDisplayName_inherited_key :
    clubOptions.lookup (js "toString") = none ∧
      getClubDisplayName (js "toString") = .inherited (js "toString") ∧
      getClubDisplayName (js "toString") ≠ .str (js "toString") ∧
      getClubDisplayName (js "未知") = .str (js "未知") := by
  decide

/-- C5. The club code `"constructor"` is registered in neither table, yet
`getClubClassName("constructor")` is not `"default"`: the read
`clubClasses["constructor"]` finds the function inherited from
`Object.prototype`, which is truthy and is returned. (The unknown code `"未知"`
does get `"default"`.) -/
theorem C5_getClubClassName_inherited_key :
    clubClasses.lookup (js "constructor") = none ∧
      clubOptions.lookup (js "constructor") = none ∧
      getClubClassName (js "constructor") = .inherited (js "constructor") ∧
      getClubClassName (js "constructor") ≠ .str (js "default") ∧
      getClubClassName (js "未知") = .str (js "default") := by
  decide

/-! ## Star rating -/

/-- C10. Star rating: for a confidence from 1 to 5 the star string is `confidence`
filled stars followed by `5 - confidence` empty stars, five glyphs in all; both
repeat counts are non-negative and neither `repeat` throws. -/
theorem C10_confidenceStars (confidence : Int) (h1 : 1 ≤ confidence) (h5 : confidence ≤ 5) :
    confidenceStars confidence
        = .ok (List.replicate confidence.toNat 0x2605
            ++ List.replicate (5 - confidence).toNat 0x2606) ∧
      (List.replicate confidence.toNat 0x2605
            ++ List.replicate (5 - confidence).toNat 0x2606).length = 5 ∧
      0 ≤ confidence ∧ 0 ≤ 5 - confidence ∧
      jsRepeat (js "★") confidence ≠ .error .rangeError ∧
      jsRepeat (js "☆") (5 - confidence) ≠ .error .rangeError := by
  interval_cases confidence <;> decide

theorem C10_confidenceStars_witness :
    (1 : Int) ≤ 4 ∧ (4 : Int) ≤ 5 ∧ confidenceStars 4 = .ok (js "★★★★☆") :=
  ⟨by decide, by decide, (C10_confidenceStars 4 (by decide) (by decide)).1.trans (by decide)⟩

/-! ## escapeHTML: properties -/

/-- The five entities `escapeHTML` writes. -/
theorem replaceTag_cases (c : Nat) (h : matchesTag c = true) :
    (c = 38 ∧ replaceTag c = js "&amp;") ∨ (c = 60 ∧ replaceTag c = js "&lt;") ∨
      (c = 62 ∧ replaceTag c = js "&gt;") ∨ (c = 39 ∧ replaceTag c = js "&#39;") ∨
      (c = 34 ∧ replaceTag c = js "&quot;") := by
  simp only [matchesTag, Bool.or_eq_true, beq_iff_eq] at h
  rcases h with (((rfl | rfl) | rfl) | rfl) | rfl <;> decide

theorem replaceTags_cons (c : Nat) (s : JSString) :
    replaceTags (c :: s) = (if matchesTag c then replaceTag c else [c]) ++ replaceTags s := by
  simp [replaceTags]

theorem escapeHTML_str (s : JSString) : escapeHTML (.str s) = .ok (replaceTags s) := by
  cases s with
  | nil => rfl
  | cons c s => simp [escapeHTML, truthy]

theorem entity_tail_no_amp (c : Nat) (h : matchesTag c = true) :
    ∃ t, replaceTag c = 38 :: t ∧ 38 ∉ t ∧ replaceTag c ∈ entities := by
  rcases replaceTag_cases c h with ⟨-, h⟩ | ⟨-, h⟩ | ⟨-, h⟩ | ⟨-, h⟩ | ⟨-, h⟩ <;>
    rw [h] <;> exact ⟨_, rfl, by decide, by decide⟩

theorem entity_no_markup (c : Nat) (h : matchesTag c = true) :
    ∀ x ∈ replaceTag c, x ≠ 60 ∧ x ≠ 62 ∧ x ≠ 39 ∧ x ≠ 34 := by
  rcases replaceTag_cases c h with ⟨-, h⟩ | ⟨-, h⟩ | ⟨-, h⟩ | ⟨-, h⟩ | ⟨-, h⟩ <;>
    rw [h] <;> decide

theorem replaceTags_no_markup (s : JSString) :
    ∀ c ∈ replaceTags s, c ≠ 60 ∧ c ≠ 62 ∧ c ≠ 39 ∧ c ≠ 34 := by
  induction s with
  | nil => simp [replaceTags]
  | cons d s ih =>
    intro c hc
    rw [replaceTags_cons, List.mem_append] at hc
    rcases hc with hc | hc
    · by_cases hd : matchesTag d = true
      · rw [if_pos hd] at hc
        exact entity_no_markup d hd c hc
      · rw [if_neg hd, List.mem_singleton] at hc
        subst hc
        simp only [matchesTag, Bool.or_eq_true, beq_iff_eq, not_or] at hd
        omega
    · exact ih c hc

theorem replaceTags_amp_starts_entity (s pre suf : JSString)
    (h : replaceTags s = pre ++ 38 :: suf) : ∃ e ∈ entities, e <+: 38 :: suf := by
  induction s generalizing pre with
  | nil => simp [replaceTags] at h
  | cons d s ih =>
    rw [replaceTags_cons] at h
    rcases List.append_eq_append_iff.1 h with ⟨a, rfl, ha⟩ | ⟨b, hb, hsuf⟩
    · exact ih a ha
    · cases b with
      | nil =>
        simp only [List.nil_append] at hsuf
        exact ih [] hsuf.symm
      | cons x b =>
        simp only [List.cons_append, List.cons.injEq] at hsuf
        obtain ⟨rfl, rfl⟩ := hsuf
        by_cases hd : matchesTag d = true
        · rw [if_pos hd] at hb
          obtain ⟨t, ht, hnot, hmem⟩ := entity_tail_no_amp d hd
          rw [ht] at hb
          cases pre with
          | nil =>
            simp only [List.nil_append, List.cons.injEq, true_and] at hb
            subst hb
            refine ⟨replaceTag d, hmem, ?_⟩
            rw [ht]
            exact ⟨replaceTags s, by simp⟩
          | cons y pre =>
            simp only [List.cons_append, List.cons.injEq] at hb
            exact absurd (hb.2 ▸ (by simp : (38 : Nat) ∈ pre ++ 38 :: b)) hnot
        · rw [if_neg hd] at hb
          cases pre with
          | nil =>
            simp only [List.nil_append, List.cons.injEq] at hb
            rw [hb.1] at hd
            exact absurd (by decide : matchesTag 38 = true) hd
          | cons y pre =>
            simp only [List.cons_append, List.cons.injEq] at hb
            exact absurd hb.2 (by simp)

theorem replaceTags_of_no_tag (s : JSString) (h : ∀ c ∈ s, matchesTag c = false) :
    replaceTags s = s := by
  induction s with
  | nil => rfl
  | cons d s ih =>
    rw [replaceTags_cons, h d (by simp), ih (fun c hc => h c (by simp [hc]))]
    simp

theorem replaceTags_eq_substitution (s : JSString) :
    replaceTags s = s.flatMap (fun c =>
      if c = 38 then js "&amp;" else if c = 60 then js "&lt;" else if c = 62 then js "&gt;"
      else if c = 39 then js "&#39;" else if c = 34 then js "&quot;" else [c]) := by
  unfold replaceTags
  congr 1
  funext c
  by_cases hc : matchesTag c = true
  · rw [if_pos hc]
    rcases replaceTag_cases c hc with ⟨rfl, h⟩ | ⟨rfl, h⟩ | ⟨rfl, h⟩ | ⟨rfl, h⟩ | ⟨rfl, h⟩ <;>
      exact h
  · rw [if_neg hc]
    simp only [matchesTag, Bool.or_eq_true, beq_iff_eq, not_or] at hc
    obtain ⟨⟨⟨⟨h1, h2⟩, h3⟩, h4⟩, h5⟩ := hc
    simp [h1, h2, h3, h4, h5]

/-- C9. `escapeHTML` is the per-character substitution `&` to `&amp;`, `<` to
`&lt;`, `>` to `&gt;`, `'` to `&#39;`, `"` to `&quot;`, every other code unit
kept; an absent or empty input gives the empty string. For every string the
result holds none of `<`, `>`, `'`, `"`, every `&` in it starts one of the five
entities, and the result is the input when the input holds none of the five
characters. -/
theorem C9_escapeHTML (s : JSString) :
    escapeHTML .undefined = .ok [] ∧ escapeHTML (.str []) = .ok [] ∧
      entities = [js "&amp;", js "&lt;", js "&gt;", js "&#39;", js "&quot;"] ∧
      ∃ r, escapeHTML (.str s) = .ok r ∧
        r = s.flatMap (fun c =>
          if c = 38 then js "&amp;" else if c = 60 then js "&lt;"
          else if c = 62 then js "&gt;" else if c = 39 then js "&#39;"
          else if c = 34 then js "&quot;" else [c]) ∧
        (60 ∉ r ∧ 62 ∉ r ∧ 39 ∉ r ∧ 34 ∉ r) ∧
        (∀ i, r[i]? = some 38 → ∃ e ∈ entities, e <+: r.drop i) ∧
        ((∀ c ∈ s, c ∉ [38, 60, 62, 39, 34]) → r = s) := by
  refine ⟨by decide, by decide, by decide, replaceTags s, escapeHTML_str s,
    replaceTags_eq_substitution s, ?_, ?_, ?_⟩
  · have h := replaceTags_no_markup s
    exact ⟨fun m => (h 60 m).1 rfl, fun m => (h 62 m).2.1 rfl, fun m => (h 39 m).2.2.1 rfl,
      fun m => (h 34 m).2.2.2 rfl⟩
  · intro i hi
    obtain ⟨hlt, hget⟩ := List.getElem?_eq_some.1 hi
    have hdrop : (replaceTags s).drop i = 38 :: (replaceTags s).drop (i + 1) := by
      rw [← hget]
      exact List.drop_eq_getElem_cons hlt
    rw [hdrop]
    apply replaceTags_amp_starts_entity s ((replaceTags s).take i)
    rw [← hdrop, List.take_append_drop]
  · intro h
    apply replaceTags_of_no_tag
    intro c hc
    have := h c hc
    simp only [List.mem_cons, List.mem_singleton, List.not_mem_nil, or_false, not_or] at this
    simp [matchesTag, this]

theorem C9_escapeHTML_witness :
    (∀ c ∈ js "芝1600m", c ∉ [38, 60, 62, 39, 34]) ∧
      escapeHTML (.str (js "芝1600m")) = .ok (js "芝1600m") ∧
      escapeHTML (.str (js "<b>Tom & \"Jerry's\"</b>"))
        = .ok (js "&lt;b&gt;Tom &amp; &quot;Jerry&#39;s&quot;&lt;/b&gt;") := by
  refine ⟨by decide, ?_, by decide⟩
  obtain ⟨r, hr, -, -, -, h⟩ := (C9_escapeHTML (js "芝1600m")).2.2.2
  rw [hr, h (by decide)]

/-! ## renderPosts: properties -/

theorem cardHTML_racecourse_raw (formatDate : JSString → JSString) (post : Post)
    (html : JSString) (h : cardHTML formatDate post = .ok html) :
    ∃ rest, html = cardHead ++ post.racecourse ++ rest := by
  unfold cardHTML at h
  simp only [bind, Except.bind, pure, Except.pure] at h
  repeat' split at h
  all_goals first
    | (simp only [Except.ok.injEq] at h
       subst h
       simp only [cardHead, List.append_assoc]
       exact ⟨_, rfl⟩)
    | exact Except.noConfusion h

theorem cardHTML_scriptPost_ok (formatDate : JSString → JSString) :
    (cardHTML formatDate scriptPost).toBool = true := rfl

theorem cardHTML_inherited_club_throws (formatDate : JSString → JSString) :
    cardHTML formatDate { scriptPost with club := js "constructor" } = .error .typeError :=
  rfl

/-- C8. The card of a post whose racecourse is `<script>alert(1)</script>` holds
that text as it is, right after the opening of the `race-info` element:
`post.racecourse` is put into the template without `escapeHTML` (line 213),
while `escapeHTML` of the same text would have been
`&lt;script&gt;alert(1)&lt;/script&gt;`. -/
theorem C8_racecourse_not_escaped (formatDate : JSString → JSString) :
    escapeHTML (.str scriptPost.racecourse) = .ok (js "&lt;script&gt;alert(1)&lt;/script&gt;") ∧
      ∃ rest, cardHTML formatDate scriptPost
        = .ok (cardHead ++ js "<script>alert(1)</script>" ++ rest) := by
  refine ⟨by decide, ?_⟩
  cases hc : cardHTML formatDate scriptPost with
  | error e =>
    have := cardHTML_scriptPost_ok formatDate
    rw [hc] at this
    exact absurd this (by simp [Except.toBool])
  | ok html =>
    obtain ⟨rest, hrest⟩ := cardHTML_racecourse_raw formatDate scriptPost html hc
    exact ⟨rest, by rw [hrest]; rfl⟩

/-! ## The submit handlers: properties -/

theorem lookup_cons_ite {β : Type} (k k' : JSString) (w : β) (o : List (JSString × β)) :
    List.lookup k ((k', w) :: o) = if k = k' then some w else List.lookup k o := by
  by_cases h : k = k'
  · subst h
    simp [List.lookup]
  · have hb : (k == k') = false := by simpa using h
    simp [List.lookup, hb, h]

theorem objGet_objSet (o : DataObject) (key k : JSString) (v : DataValue) :
    objGet (objSet o key v) k = if k = key then some v else objGet o k := by
  induction o with
  | nil => simp [objSet, objGet, lookup_cons_ite]
  | cons e o ih =>
    obtain ⟨k', w⟩ := e
    unfold objGet at ih ⊢
    by_cases hk : key = k'
    · subst hk
      simp only [objSet, beq_self_eq_true, if_true, lookup_cons_ite]
      by_cases h : k = key <;> simp [h]
    · have hk' : (key == k') = false := by simpa using hk
      simp only [objSet, hk', Bool.false_eq_true, if_false, lookup_cons_ite, ih]
      by_cases h : k = k'
      · subst h
        have : ¬ k = key := fun h => hk h.symm
        simp [this]
      · simp [h]

theorem objGet_objDelete (o : DataObject) (key k : JSString) :
    objGet (objDelete o key) k = if k = key then none else objGet o k := by
  induction o with
  | nil => simp [objDelete, objGet]
  | cons e o ih =>
    obtain ⟨k', w⟩ := e
    unfold objGet objDelete at ih ⊢
    by_cases hk : key = k'
    · subst hk
      have : List.filter (fun e => !(key == e.1)) ((key, w) :: o)
          = List.filter (fun e => !(key == e.1)) o := by simp [List.filter]
      rw [this, ih, lookup_cons_ite]
      by_cases h : k = key <;> simp [h]
    · have hk' : (key == k') = false := by simpa using hk
      have : List.filter (fun e => !(key == e.1)) ((k', w) :: o)
          = (k', w) :: List.filter (fun e => !(key == e.1)) o := by simp [List.filter, hk']
      rw [this, lookup_cons_ite, lookup_cons_ite, ih]
      by_cases h : k = k'
      · subst h
        have : ¬ k = key := fun h => hk h.symm
        simp [this]
      · simp [h]

theorem objGet_foldl_objSet (entries : List (JSString × JSString)) (o : DataObject)
    (k : JSString) :
    objGet (entries.foldl (fun o e => objSet o e.1 (.str e.2)) o) k
      = match formValue entries k with
        | some w => some (.str w)
        | none => objGet o k := by
  induction entries generalizing o with
  | nil => simp [formValue]
  | cons e entries ih =>
    obtain ⟨k', v⟩ := e
    simp only [List.foldl_cons, ih, formValue, objGet_objSet]
    cases formValue entries k with
    | some w => rfl
    | none =>
      by_cases h : k = k' <;> simp [h, objGet_objSet]

theorem objGet_fromEntries (entries : List (JSString × JSString)) (k : JSString) :
    objGet (fromEntries entries) k = (formValue entries k).map .str := by
  unfold fromEntries
  rw [objGet_foldl_objSet]
  cases formValue entries k <;> simp [objGet]

theorem lookup_stringify (data : DataObject) (k : JSString) :
    (stringify data).lookup k = (objGet data k).map Json.ofData := by
  induction data with
  | nil => simp [stringify, objGet]
  | cons e data ih =>
    obtain ⟨k', w⟩ := e
    unfold stringify objGet at ih ⊢
    simp only [List.map_cons, lookup_cons_ite, ih]
    by_cases h : k = k' <;> simp [h]

theorem keys_nodup :
    [js "race_number", js "confidence", js "conditions", js "surface", js "distance",
      js "password"].Nodup := by decide

theorem toStr_map_str (v : Option JSString) :
    toStr (v.map DataValue.str) = v.getD (js "undefined") := by
  cases v <;> rfl

theorem lookup_createRequest (parseInt : JSString → Option Int)
    (entries : List (JSString × JSString)) (k : JSString) :
    (createRequest parseInt entries).body.lookup k =
      if k = js "distance" then none
      else if k = js "surface" then none
      else if k = js "conditions" then
        some (Json.ofData (jsPlus ((formValue entries (js "surface")).map .str)
          ((formValue entries (js "distance")).map .str)))
      else if k = js "confidence" then
        some (Json.ofData (.num (parseInt
          ((formValue entries (js "confidence")).getD (js "undefined")))))
      else if k = js "race_number" then
        some (Json.ofData (.num (parseInt
          ((formValue entries (js "race_number")).getD (js "undefined")))))
      else (formValue entries k).map Json.str := by
  have h1 : js "surface" ≠ js "confidence" := by decide
  have h2 : js "surface" ≠ js "race_number" := by decide
  have h3 : js "distance" ≠ js "confidence" := by decide
  have h4 : js "distance" ≠ js "race_number" := by decide
  have h5 : js "confidence" ≠ js "race_number" := by decide
  simp only [createRequest, lookup_stringify, buildData, objGet_objDelete, objGet_objSet,
    objGet_fromEntries, id, h1, h2, h3, h4, h5, if_false, toStr_map_str]
  split_ifs <;> simp [Option.map_map, Function.comp_def, Json.ofData]

theorem lookup_updateRequest (parseInt : JSString → Option Int) (password : JSString)
    (activePostId : Int) (entries : List (JSString × JSString)) (k : JSString) :
    (updateRequest parseInt password activePostId entries).body.lookup k =
      if k = js "distance" then none
      else if k = js "surface" then none
      else if k = js "conditions" then
        some (Json.ofData (jsPlus ((formValue entries (js "surface")).map .str)
          ((formValue entries (js "distance")).map .str)))
      else if k = js "password" then some (.str password)
      else if k = js "confidence" then
        some (Json.ofData (.num (parseInt
          ((formValue entries (js "confidence")).getD (js "undefined")))))
      else if k = js "race_number" then
        some (Json.ofData (.num (parseInt
          ((formValue entries (js "race_number")).getD (js "undefined")))))
      else (formValue entries k).map Json.str := by
  have h1 : js "surface" ≠ js "confidence" := by decide
  have h2 : js "surface" ≠ js "race_number" := by decide
  have h3 : js "distance" ≠ js "confidence" := by decide
  have h4 : js "distance" ≠ js "race_number" := by decide
  have h5 : js "confidence" ≠ js "race_number" := by decide
  have h6 : js "surface" ≠ js "password" := by decide
  have h7 : js "distance" ≠ js "password" := by decide
  simp only [updateRequest, lookup_stringify, buildData, objGet_objDelete, objGet_objSet,
    objGet_fromEntries, h1, h2, h3, h4, h5, h6, h7, if_false, toStr_map_str]
  split_ifs <;> simp [Option.map_map, Function.comp_def, Json.ofData]

/-- C6. Request body construction. For every list of form entries, in the body
of the create request (POST) and of the update request (PUT): `conditions` is the
surface value followed directly by the distance value; there is no `surface` and
no `distance` member; `race_number` and `confidence` are the integer parse of
what the form supplied (`null` standing for `NaN` in JSON); every other member
has the value the form supplied; and the update body has `password` equal to the
value of the auth input. Whatever the entries, `conditions` is the value of the
expression `data.surface + data.distance`. -/
theorem C6_request_body (parseInt : JSString → Option Int) (password : JSString)
    (activePostId : Int) (entries : List (JSString × JSString)) :
    ((createRequest parseInt entries).method = .POST ∧
      (updateRequest parseInt password activePostId entries).method = .PUT) ∧
    (∀ S D, formValue entries (js "surface") = some S →
      formValue entries (js "distance") = some D →
      (createRequest parseInt entries).body.lookup (js "conditions") = some (.str (S ++ D)) ∧
      (updateRequest parseInt password activePostId entries).body.lookup (js "conditions")
        = some (.str (S ++ D))) ∧
    ((createRequest parseInt entries).body.lookup (js "surface") = none ∧
      (createRequest parseInt entries).body.lookup (js "distance") = none ∧
      (updateRequest parseInt password activePostId entries).body.lookup (js "surface") = none ∧
      (updateRequest parseInt password activePostId entries).body.lookup (js "distance")
        = none) ∧
    (∀ k ∈ [js "race_number", js "confidence"],
      (createRequest parseInt entries).body.lookup k
        = some (Json.ofData (.num (parseInt ((formValue entries k).getD (js "undefined"))))) ∧
      (updateRequest parseInt password activePostId entries).body.lookup k
        = some (Json.ofData (.num (parseInt ((formValue entries k).getD (js "undefined")))))) ∧
    (∀ k, k ∉ [js "race_number", js "confidence", js "conditions", js "surface",
        js "distance"] →
      (createRequest parseInt entries).body.lookup k = (formValue entries k).map Json.str) ∧
    (∀ k, k ∉ [js "race_number", js "confidence", js "conditions", js "surface",
        js "distance", js "password"] →
      (updateRequest parseInt password activePostId entries).body.lookup k
        = (formValue entries k).map Json.str) ∧
    (updateRequest parseInt password activePostId entries).body.lookup (js "password")
      = some (.str password) ∧
    ((createRequest parseInt entries).body.lookup (js "conditions")
        = some (Json.ofData (jsPlus ((formValue entries (js "surface")).map .str)
            ((formValue entries (js "distance")).map .str))) ∧
      (updateRequest parseInt password activePostId entries).body.lookup (js "conditions")
        = some (Json.ofData (jsPlus ((formValue entries (js "surface")).map .str)
            ((formValue entries (js "distance")).map .str)))) := by
  refine ⟨⟨rfl, rfl⟩, ?_, ?_, ?_, ?_, ?_, ?_, ?_⟩
  · intro S D hS hD
    rw [lookup_createRequest, lookup_updateRequest, hS, hD]
    exact ⟨by simp [show js "conditions" ≠ js "distance" by decide,
        show js "conditions" ≠ js "surface" by decide, jsPlus, toStr, Json.ofData],
      by simp [show js "conditions" ≠ js "distance" by decide,
        show js "conditions" ≠ js "surface" by decide, jsPlus, toStr, Json.ofData]⟩
  · simp only [lookup_createRequest, lookup_updateRequest]
    exact ⟨by simp [show js "surface" ≠ js "distance" by decide], by simp,
      by simp [show js "surface" ≠ js "distance" by decide], by simp⟩
  · intro k hk
    simp only [List.mem_cons, List.mem_singleton, List.not_mem_nil, or_false] at hk
    rw [lookup_createRequest, lookup_updateRequest]
    rcases hk with rfl | rfl
    · simp [show js "race_number" ≠ js "distance" by decide,
        show js "race_number" ≠ js "surface" by decide,
        show js "race_number" ≠ js "conditions" by decide,
        show js "race_number" ≠ js "password" by decide,
        show js "race_number" ≠ js "confidence" by decide]
    · simp [show js "confidence" ≠ js "distance" by decide,
        show js "confidence" ≠ js "surface" by decide,
        show js "confidence" ≠ js "conditions" by decide,
        show js "confidence" ≠ js "password" by decide]
  · intro k hk
    simp only [List.mem_cons, List.mem_singleton, List.not_mem_nil, or_false, not_or] at hk
    rw [lookup_createRequest]
    simp [hk]
  · intro k hk
    simp only [List.mem_cons, List.mem_singleton, List.not_mem_nil, or_false, not_or] at hk
    rw [lookup_updateRequest]
    simp [hk]
  · rw [lookup_updateRequest]
    simp [show js "password" ≠ js "distance" by decide,
      show js "password" ≠ js "surface" by decide,
      show js "password" ≠ js "conditions" by decide]
  · rw [lookup_createRequest, lookup_updateRequest]
    simp [show js "conditions" ≠ js "distance" by decide,
      show js "conditions" ≠ js "surface" by decide]

theorem C6_request_body_witness :
    formValue (sampleEntries (js "4")) (js "surface") = some (js "芝") ∧
      formValue (sampleEntries (js "4")) (js "distance") = some (js "1600") ∧
      (createRequest parseInt (sampleEntries (js "4"))).body.lookup (js "conditions")
        = some (.str (js "芝" ++ js "1600")) ∧
      (updateRequest parseInt (js "abc123") 7 (sampleEntries (js "4"))).body.lookup
        (js "conditions") = some (.str (js "芝" ++ js "1600")) ∧
      js "horse_name" ∉ [js "race_number", js "confidence", js "conditions", js "surface",
        js "distance"] ∧
      (createRequest parseInt (sampleEntries (js "4"))).body.lookup (js "horse_name")
        = (formValue (sampleEntries (js "4")) (js "horse_name")).map Json.str :=
  ⟨by decide, by decide,
    ((C6_request_body parseInt (js "abc123") 7 (sampleEntries (js "4"))).2.1
      (js "芝") (js "1600") (by decide) (by decide)).1,
    ((C6_request_body parseInt (js "abc123") 7 (sampleEntries (js "4"))).2.1
      (js "芝") (js "1600") (by decide) (by decide)).2,
    by decide,
    (C6_request_body parseInt (js "abc123") 7 (sampleEntries (js "4"))).2.2.2.2.1
      (js "horse_name") (by decide)⟩

/-! ## The create handler and the confidence value -/

/-- C7, as the claim states it, fails: a create whose confidence is `0`, and one
whose confidence is `6`, is sent as a POST with that confidence in its body and
is a success when the server answers `ok`; the handler raises no validation
error. -/
theorem C7_confidence_out_of_range_is_sent :
    postFormSubmit parseInt (fun _ => .response true 201) (sampleEntries (js "0"))
        = { sent := [{ method := .POST, url := js "/api/posts", body := sampleBody 0 }]
            outcome := .posted } ∧
      postFormSubmit parseInt (fun _ => .response true 201) (sampleEntries (js "6"))
        = { sent := [{ method := .POST, url := js "/api/posts", body := sampleBody 6 }]
            outcome := .posted } := by
  decide

/-- C7, amended. The create handler validates nothing itself: whatever the
confidence text, it sends exactly one request, a POST to `/api/posts` whose body
has `confidence` equal to the integer parse of that text, and the create ends as
a success exactly when the response is `ok`; a response that is not `ok` ends in
the alert `投稿に失敗しました。` and a rejected fetch in the alert
`通信エラーが発生しました。`. -/
theorem C7_create_sends_any_confidence (parseInt : JSString → Option Int)
    (server : Request → FetchResult) (entries : List (JSString × JSString)) :
    (postFormSubmit parseInt server entries).sent = [createRequest parseInt entries] ∧
      (createRequest parseInt entries).method = .POST ∧
      (createRequest parseInt entries).url = js "/api/posts" ∧
      (createRequest parseInt entries).body.lookup (js "confidence")
        = some (Json.ofData (.num (parseInt
            ((formValue entries (js "confidence")).getD (js "undefined"))))) ∧
      ((postFormSubmit parseInt server entries).outcome = .posted ↔
        ∃ status, server (createRequest parseInt entries) = .response true status) ∧
      ((postFormSubmit parseInt server entries).outcome = .alertFailed ↔
        ∃ status, server (createRequest parseInt entries) = .response false status) ∧
      ((postFormSubmit parseInt server entries).outcome = .alertNetwork ↔
        server (createRequest parseInt entries) = .rejected) := by
  refine ⟨rfl, rfl, rfl, ?_, ?_, ?_, ?_⟩
  · rw [lookup_createRequest]
    simp [show js "confidence" ≠ js "distance" by decide,
      show js "confidence" ≠ js "surface" by decide,
      show js "confidence" ≠ js "conditions" by decide]
  all_goals
    simp only [postFormSubmit]
    cases h : server (createRequest parseInt entries) with
    | response ok status => cases ok <;> simp
    | rejected => simp

end AnimanHorseDb
